import Mathlib

/-
Verification of the menuize console-menu core against its specification.

The development shallowly embeds the Python sources:
  console/utilities.py : varg (type-validation helper)
  console/node.py      : MenuNode.__init__, MenuNode._pack, _rec_decompose_node
  console/shell.py     : MenuShell, decompose_menu, from_tuple
  console/pointer.py   : MenuPointer.select, MenuPointer.back

Python values that can be either None or a str are embedded as Option String
(abbreviated PyStr below, with none standing for Python None).  Python
exceptions are embedded as the error side of Except; the soft, logged-only
outcomes of the source are ordinary return values.  re.match (anchored-at-the-
start regular-expression matching, an external library call) is abstracted as
an explicit Boolean matcher parameter, and re.compile success is abstracted as
a Boolean predicate parameter consulted exactly where the source calls the
compiler.
-/

namespace Menuize

/-- A Python value that is either None or a string (ids, parents, selectors). -/
abbrev PyStr := Option String

/-- The fragment of the Python value universe that reaches varg in the
modelled call sites: None, bools, strings and lists. -/
inductive PyVal where
  | vnone
  | vbool (b : Bool)
  | vstr (s : String)
  | vlist (xs : List PyVal)

/-- Python type objects that appear in the source's varg calls. -/
inductive PyType where
  | str
  | bool
  | int
  | float
  | list
  | pattern
deriving DecidableEq

/-- Embedded Python exceptions raised by the modelled code paths. -/
inductive PyErr where
  | typeError
  | valueErrorModes (count : Nat)
  | valueErrorRootExists
  | integrityErrorRoot (parent : PyStr)
  | integrityErrorParent (current : PyStr) (parent : PyStr)
  | compositeError
  | attributeError
  | keyError
  | indexError
  | notImplementedError
deriving DecidableEq

/-- Python `input == None` for the embedded universe. -/
def PyVal.isNone : PyVal → Bool
  | .vnone => true
  | _ => false

/-- Python isinstance on the embedded universe (a bool is also an int). -/
def isinst : PyVal → PyType → Bool
  | .vbool _, .bool => true
  | .vbool _, .int => true
  | .vstr _, .str => true
  | .vlist _, .list => true
  | _, _ => false

/-- utilities.varg: returns True immediately when the input is None; otherwise
scans the expected types, treating re.Pattern specially by attempting to
compile the input (abstracted by the compiles parameter), and raises TypeError
when a varname was supplied and no expected type matched. -/
def varg (compiles : PyVal → Bool) (input : PyVal) (args : List PyType)
    (varname : Option String) : Except PyErr Bool :=
  if input.isNone then .ok true
  else
    let valid := args.any fun a =>
      if a = PyType.pattern then compiles input else isinst input a
    if varname.isSome && !valid then .error .typeError else .ok valid

/-- Embed a None-or-str value into the varg universe. -/
def PyStr.toVal : PyStr → PyVal
  | none => .vnone
  | some s => .vstr s

/-- The pattern argument of MenuNode.__init__: a single pattern string or a
list of entries (each of which Python allows to be None or a string). -/
inductive PatternInput where
  | single (p : String)
  | plist (ps : List PyStr)

/-- The choice argument embedded as a varg input. -/
def choiceArgVal : Option (List PyStr) → PyVal
  | none => .vnone
  | some xs => .vlist (xs.map PyStr.toVal)

/-- The pattern argument embedded as a varg input. -/
def patternArgVal : Option PatternInput → PyVal
  | none => .vnone
  | some (.single p) => .vstr p
  | some (.plist ps) => .vlist (ps.map PyStr.toVal)

/-- The source's list comprehensions that run varg over every element of an
argument list, propagating the first raised error. -/
def vargEach (compiles : PyVal → Bool) (xs : List PyVal) (args : List PyType)
    (vn : String) : Except PyErr Unit :=
  match xs with
  | [] => .ok ()
  | x :: rest =>
    match varg compiles x args (some vn) with
    | .error e => .error e
    | .ok _ => vargEach compiles rest args vn

/-- A menu tree node: id, mode, selection, parent id and children, mirroring
the attributes set by node.py.  The parent attribute is unset by __init__ in
the source (it is assigned by add_child, or set to None for the root); the
model defaults it to none, and every code path that reads it has assigned it
first. -/
inductive MenuNode where
  | mk (id : PyStr) (mode : String) (selection : List PyStr) (parent : PyStr)
      (children : List MenuNode)

def MenuNode.id : MenuNode → PyStr
  | .mk i _ _ _ _ => i

def MenuNode.mode : MenuNode → String
  | .mk _ m _ _ _ => m

def MenuNode.selection : MenuNode → List PyStr
  | .mk _ _ s _ _ => s

def MenuNode.parent : MenuNode → PyStr
  | .mk _ _ _ p _ => p

def MenuNode.children : MenuNode → List MenuNode
  | .mk _ _ _ _ c => c

/-- The count of mutually exclusive mode inputs the constructor received:
the source filters (truefalse, choice, pattern, bounds) for entries that are
neither None nor False and takes the length. -/
def modeOptCount (truefalse : Bool) (choice : Option (List PyStr))
    (pat : Option PatternInput) (bounds : Option Unit) : Nat :=
  (if truefalse then 1 else 0) + (if choice.isSome then 1 else 0) +
    (if pat.isSome then 1 else 0) + (if bounds.isSome then 1 else 0)

/-- The attribute-setting tail of MenuNode.__init__ after the mode-count
check: passthrough fires only when both stored keyword attributes are truthy
(non-empty selection list and non-empty mode string) and then keeps them
verbatim; otherwise a choice list sets choice mode with the raw list, a
pattern input sets pattern mode (a single pattern wrapped into a one-element
list, a list stored as given), and with no mode input the id mode falls back
to the one-element selection holding the id itself. -/
def initModeChain (id : PyStr) (choice : Option (List PyStr))
    (pat : Option PatternInput) (mode0 : Option String)
    (selection0 : Option (List PyStr)) : Except PyErr MenuNode :=
  let selTruthy := match selection0 with
    | some s => !s.isEmpty
    | none => false
  let modeTruthy := match mode0 with
    | some m => !(m == "")
    | none => false
  if selTruthy && modeTruthy then
    Except.ok (MenuNode.mk id (mode0.getD "") (selection0.getD []) none [])
  else if choice.isSome then
    Except.ok (MenuNode.mk id "choice" (choice.getD []) none [])
  else
    match pat with
    | some (.single p) => Except.ok (MenuNode.mk id "pattern" [some p] none [])
    | some (.plist ps) => Except.ok (MenuNode.mk id "pattern" ps none [])
    | none => Except.ok (MenuNode.mk id "id" [id] none [])

/-- MenuNode.__init__.  Arguments mode0 and selection0 are the mode and
selection keyword arguments of the passthrough construction path (absent =
none).  bounds is opaque (the source never reads its value).  The body keeps
the source order: the four basic varg calls, the per-element varg
comprehensions, the mode-count check, then the selection chain of
initModeChain. -/
def MenuNode.init (compiles : PyVal → Bool) (id : PyStr) (truefalse : Bool)
    (choice : Option (List PyStr)) (pat : Option PatternInput)
    (bounds : Option Unit) (mode0 : Option String)
    (selection0 : Option (List PyStr)) : Except PyErr MenuNode :=
  match varg compiles id.toVal [PyType.str] (some "id") with
  | .error e => .error e
  | .ok _ =>
  match varg compiles (PyVal.vbool truefalse) [PyType.bool] (some "truefalse") with
  | .error e => .error e
  | .ok _ =>
  match varg compiles (choiceArgVal choice) [PyType.list] (some "choice") with
  | .error e => .error e
  | .ok _ =>
  match varg compiles (patternArgVal pat) [PyType.list, PyType.pattern] (some "pattern") with
  | .error e => .error e
  | .ok _ =>
  match (match choice with
    | some xs =>
        vargEach compiles (xs.map PyStr.toVal)
          [PyType.bool, PyType.float, PyType.int, PyType.str] "choice"
    | none => Except.ok ()) with
  | .error e => .error e
  | .ok _ =>
  match (match pat with
    | some (.plist ps) => vargEach compiles (ps.map PyStr.toVal) [PyType.pattern] "pattern"
    | _ => Except.ok ()) with
  | .error e => .error e
  | .ok _ =>
  let opt := modeOptCount truefalse choice pat bounds
  if opt > 1 then
    Except.error (PyErr.valueErrorModes opt)
  else initModeChain id choice pat mode0 selection0

/-- The 4-tuple returned by MenuNode._pack: (id, parent, mode, selection). -/
structure NodeRecord where
  id : PyStr
  parent : PyStr
  mode : String
  selection : List PyStr
deriving DecidableEq

def MenuNode.pack (n : MenuNode) : NodeRecord :=
  ⟨n.id, n.parent, n.mode, n.selection⟩

/-- An item yielded by the decomposition generators.  The source's
_rec_decompose_node yields _pack tuples on its for-branch but yields the raw
MenuNode object itself on its else-branch, so the item type must cover both. -/
inductive DItem where
  | record (r : NodeRecord)
  | node (n : MenuNode)

mutual

/-- node._rec_decompose_node: when the node has children, walk them in order,
yielding each child's pack and recursing into children that themselves have
children; when the node has no children, yield the node object itself (the
source's else-branch yields node, not node._pack()). -/
def recDecomposeNode : MenuNode → List DItem
  | .mk i m s p cs =>
    if cs.isEmpty then [DItem.node (.mk i m s p cs)]
    else recDecomposeKids cs

/-- The for-loop of _rec_decompose_node over a child list. -/
def recDecomposeKids : List MenuNode → List DItem
  | [] => []
  | c :: cs =>
    (DItem.record c.pack ::
      (if c.children.isEmpty then [] else recDecomposeNode c)) ++ recDecomposeKids cs

end

/-- MenuShell: owns the optional root node. -/
structure MenuShell where
  root : Option MenuNode

/-- shell.decompose_menu: with a root, yields the root's pack followed by the
recursive decomposition; with no root the source executes
logging.WARNING(message) — logging.WARNING is the integer constant 30, and
calling an int raises TypeError as soon as the generator is iterated. -/
def decompose_menu (menu : MenuShell) : Except PyErr (List DItem) :=
  match menu.root with
  | some r => .ok (DItem.record r.pack :: recDecomposeNode r)
  | none => .error .typeError

/-- Python truthiness of a None-or-str value. -/
def truthyStr : PyStr → Bool
  | none => false
  | some s => !s.isEmpty

/-- The validation loop of shell.from_tuple (validate=True).  For each element
in order: unpacking a raw MenuNode item raises TypeError; the first record
raises IntegrityError when its parent is truthy; a later record raises
IntegrityError when its own id (the source compares id, not parent) is not in
the accumulated val_list; then the element type checks (id must be a str, mode
one of id / choice / pattern; the selection is a list by construction of
NodeRecord); finally the record's id is appended to val_list. -/
def fromTupleValidate : List DItem → Nat → List PyStr → Except PyErr Unit
  | [], _, _ => .ok ()
  | DItem.node _ :: _, _, _ => .error .typeError
  | DItem.record r :: rest, n, val_list =>
    if n = 0 && truthyStr r.parent then
      .error (.integrityErrorRoot r.parent)
    else if n > 0 && !(val_list.contains r.id) then
      .error (.integrityErrorParent r.id r.parent)
    else if !r.id.isSome then
      .error .typeError
    else if !(["id", "choice", "pattern"].contains r.mode) then
      .error .compositeError
    else
      fromTupleValidate rest (n + 1) (val_list ++ [r.id])

/-- A node cell in the heap-level view of a MenuShell being rebuilt: the node
attributes plus the store indices of its children. -/
structure NodeCell where
  id : PyStr
  mode : String
  selection : List PyStr
  parent : PyStr
  childIdx : List Nat
deriving DecidableEq

/-- The heap-level view of a MenuShell under construction: a store of node
cells (index = object identity) and the index of the root, if set. -/
structure BuildState where
  store : List NodeCell
  root : Option Nat
deriving DecidableEq

/-- In from_tuple the MenuNode constructor is called with pattern=None, so the
regex compiler is never consulted; any stand-in function is observationally
equal there. -/
def noCompile : PyVal → Bool := fun _ => false

/-- shell.MenuShell.add_node over the heap-level state.  The varg checks on id
(a None-or-str) and parent (None bypasses, a MenuNode instance passes) always
succeed for the embedded argument types.  A node is constructed first; an id
equal to the reserved root marker installs it as root (ValueError when a root
already exists, with parent set to None); otherwise the node is attached under
the parent object — when parent is None the source calls None.add_child, an
AttributeError.  add_child sets the child's parent to the parent's id and
appends the child to the parent's children. -/
def MenuShell.add_node (st : BuildState) (id : PyStr) (parentIdx : Option Nat)
    (mode0 : Option String) (selection0 : Option (List PyStr)) :
    Except PyErr (BuildState × Nat) :=
  match MenuNode.init noCompile id false none none none mode0 selection0 with
  | .error e => .error e
  | .ok node =>
    if id = some "root" then
      match st.root with
      | none =>
        let idx := st.store.length
        let cell : NodeCell := ⟨node.id, node.mode, node.selection, none, []⟩
        .ok (⟨st.store ++ [cell], some idx⟩, idx)
      | some _ => .error .valueErrorRootExists
    else
      match parentIdx with
      | none => .error .attributeError
      | some pIdx =>
        match st.store.get? pIdx with
        | none => .error .keyError
        | some pCell =>
          let idx := st.store.length
          let cell : NodeCell := ⟨node.id, node.mode, node.selection, pCell.id, []⟩
          let store1 := st.store.set pIdx { pCell with childIdx := pCell.childIdx ++ [idx] }
          .ok (⟨store1 ++ [cell], st.root⟩, idx)

/-- The dynamically named local bindings of from_tuple (locals()[id] = node):
a dictionary from id to the store index of the node object most recently bound
to that id. -/
def lookupLocal : List (PyStr × Nat) → PyStr → Option Nat
  | [], _ => none
  | (k, v) :: rest, key => if k = key then some v else lookupLocal rest key

/-- The reconstruction loop of from_tuple: the first record is added with no
parent and no keyword arguments; each later record resolves its parent id
through the local bindings (KeyError when absent) and is added with the
recorded mode and selection passed through; each created node is then bound to
its id.  Unpacking a raw MenuNode item raises TypeError. -/
def fromTupleBuild : List DItem → Nat → BuildState → List (PyStr × Nat) →
    Except PyErr BuildState
  | [], _, st, _ => .ok st
  | DItem.node _ :: _, _, _, _ => .error .typeError
  | DItem.record r :: rest, n, st, env =>
    if n = 0 then
      match MenuShell.add_node st r.id none none none with
      | .error e => .error e
      | .ok (st1, idx) => fromTupleBuild rest (n + 1) st1 ((r.id, idx) :: env)
    else
      match lookupLocal env r.parent with
      | none => .error .keyError
      | some pIdx =>
        match MenuShell.add_node st r.id (some pIdx) (some r.mode) (some r.selection) with
        | .error e => .error e
        | .ok (st1, idx) => fromTupleBuild rest (n + 1) st1 ((r.id, idx) :: env)

/-- shell.from_tuple: when validate is set, run the validation loop first and
propagate its error; then (or otherwise) rebuild the shell from the records,
starting from an empty shell and empty bindings. -/
def from_tuple (obj : List DItem) (validate : Bool) : Except PyErr BuildState :=
  if validate then
    match fromTupleValidate obj 0 [] with
    | .error e => .error e
    | .ok _ => fromTupleBuild obj 0 ⟨[], none⟩ []
  else fromTupleBuild obj 0 ⟨[], none⟩ []

/-- pointer.MenuPointer: the current node and the two parallel history stacks
(previous nodes, and the command tokens that advanced past them).  Python list
append/pop act at the right end, so the stacks grow at the tail. -/
structure MenuPointer where
  node : MenuNode
  traceid : List MenuNode
  tracecmd : List String

/-- The inner for-loop of select's pattern arm: scan the child's selection in
order; re.match(selector, input) raises TypeError when the selector is None,
otherwise the abstracted anchored matcher rmatch decides the hit. -/
def patternScan (rmatch : String → String → Bool) (input : String) :
    List PyStr → Except PyErr Bool
  | [] => .ok false
  | none :: _ => .error .typeError
  | some s :: rest => if rmatch s input then .ok true else patternScan rmatch input rest

/-- Whether one child accepts the input, following select's match statement:
id and choice compare the input for equality against the selection entries;
pattern runs the anchored matcher over the entries; any other mode raises
NotImplementedError. -/
def childHits (rmatch : String → String → Bool) (input : String)
    (child : MenuNode) : Except PyErr Bool :=
  if child.mode = "id" ∨ child.mode = "choice" then
    .ok (child.selection.contains (some input))
  else if child.mode = "pattern" then
    patternScan rmatch input child.selection
  else .error .notImplementedError

/-- The for-loop of select over the current node's children: the first child
that accepts the input is entered — the previous node and the input token are
pushed onto the two history stacks, the current node becomes the child, and
the bar-joined tracecmd is returned; when no child accepts, the loop falls
through to a logged invalid-selection message and the implicit Python return
of None, with the pointer untouched. -/
def selectLoop (rmatch : String → String → Bool) (p : MenuPointer)
    (input : String) : List MenuNode → Except PyErr (MenuPointer × Option String)
  | [] => .ok (p, none)
  | child :: rest =>
    match childHits rmatch input child with
    | .error e => .error e
    | .ok true =>
      let p1 : MenuPointer := ⟨child, p.traceid ++ [p.node], p.tracecmd ++ [input]⟩
      .ok (p1, some (String.intercalate "|" p1.tracecmd))
    | .ok false => selectLoop rmatch p input rest

/-- pointer.MenuPointer.select (the varg check on the input always passes for
a genuine string). -/
def MenuPointer.select (rmatch : String → String → Bool) (p : MenuPointer)
    (input : String) : Except PyErr (MenuPointer × Option String) :=
  selectLoop rmatch p input p.node.children

/-- pointer.MenuPointer.back: with a non-empty traceid, pop its last node into
the current position and pop the last tracecmd entry (IndexError if tracecmd
were empty, which no reachable state produces); with an empty traceid, log
that the pointer is already at its origin and change nothing. -/
def MenuPointer.back (p : MenuPointer) : Except PyErr MenuPointer :=
  match p.traceid.getLast? with
  | some n =>
    match p.tracecmd.getLast? with
    | some _ => .ok ⟨n, p.traceid.dropLast, p.tracecmd.dropLast⟩
    | none => .error .indexError
  | none => .ok p

/-- A child node as produced by add_node("a", root): default id mode, the
selection is the singleton of its own id, parent set by add_child. -/
def nodeA : MenuNode := .mk (some "a") "id" [some "a"] (some "root") []

/-- A root node as produced by add_node("root") followed by attaching nodeA. -/
def rootWithChild : MenuNode := .mk (some "root") "id" [some "root"] none [nodeA]

/-- A shell holding a two-node tree: root with the single child a. -/
def twoNodeShell : MenuShell := ⟨some rootWithChild⟩

/-- A shell holding only a root node, as produced by add_node("root"). -/
def leafRootShell : MenuShell := ⟨some (.mk (some "root") "id" [some "root"] none [])⟩

/-- C1: the claim states that rebuilding a flattened tree with validation
enabled reproduces the tree.  On the two-node tree root -> a the flattening is
the expected two records, but from_tuple with validate=True raises
IntegrityError on the second record: the validation compares the record's own
id, instead of its parent id, against the set of ids seen so far, so every
well-formed multi-node sequence is rejected and the round trip never
completes. -/
theorem roundtrip_two_node_integrity_failure :
    decompose_menu twoNodeShell =
      .ok [DItem.record ⟨some "root", none, "id", [some "root"]⟩,
           DItem.record ⟨some "a", some "root", "id", [some "a"]⟩] ∧
    from_tuple
      [DItem.record ⟨some "root", none, "id", [some "root"]⟩,
       DItem.record ⟨some "a", some "root", "id", [some "a"]⟩] true =
      .error (.integrityErrorParent (some "a") (some "root")) := by
  exact ⟨rfl, rfl⟩

/-- C2: the claim states that a well-typed record sequence whose first record
is parentless and whose every later record's parent id was seen earlier passes
validation without an integrity error.  The sequence (root, parentless) then
(x, parent root) satisfies that, yet from_tuple with validate=True raises
IntegrityError, because the code checks whether the record's own id — not its
declared parent — already occurs in the list of previously seen ids. -/
theorem validation_rejects_wellformed_child :
    from_tuple
      [DItem.record ⟨some "root", none, "id", [some "root"]⟩,
       DItem.record ⟨some "x", some "root", "choice", [some "yes", some "no"]⟩] true =
      .error (.integrityErrorParent (some "x") (some "root")) := by
  exact rfl

/-- C3: the claim states that flattening a rooted tree yields exactly one
serialization record per node.  For a tree consisting of the root alone the
decomposition yields two items: the root's record, and then the raw root node
object itself — _rec_decompose_node's childless branch yields the node instead
of a pack, so the single node produces a second, non-record item. -/
theorem decompose_leaf_root_yields_raw_node :
    decompose_menu leafRootShell =
      .ok [DItem.record ⟨some "root", none, "id", [some "root"]⟩,
           DItem.node (.mk (some "root") "id" [some "root"] none [])] := by
  exact rfl

/-- C8: the claim states that flattening a rootless tree is a soft, logged
outcome that raises nothing.  The source's rootless branch executes
logging.WARNING(message); logging.WARNING is the integer constant 30, so
iterating the decomposition of a rootless shell raises TypeError instead of
reporting at log level. -/
theorem decompose_rootless_raises :
    decompose_menu ⟨none⟩ = .error .typeError := by
  exact rfl

/-- Children that cleanly reject the input are skipped by the select loop. -/
theorem selectLoop_skip (rmatch : String → String → Bool) (p : MenuPointer)
    (input : String) (pre rest : List MenuNode)
    (hpre : ∀ b ∈ pre, childHits rmatch input b = .ok false) :
    selectLoop rmatch p input (pre ++ rest) = selectLoop rmatch p input rest := by
  induction pre with
  | nil => rfl
  | cons b bs ih =>
    have hb : childHits rmatch input b = .ok false := hpre b (List.mem_cons_self b bs)
    simp only [List.cons_append, selectLoop, hb]
    exact ih fun x hx => hpre x (List.mem_cons_of_mem b hx)

/-- A select that returns a joined path has pushed the previous node and the
input token onto the history stacks and moved to some child. -/
theorem selectLoop_ok_some (rmatch : String → String → Bool) (p : MenuPointer)
    (input : String) (l : List MenuNode) (p1 : MenuPointer) (out : String)
    (h : selectLoop rmatch p input l = .ok (p1, some out)) :
    ∃ c, p1 = ⟨c, p.traceid ++ [p.node], p.tracecmd ++ [input]⟩ := by
  induction l with
  | nil => simp [selectLoop] at h
  | cons c rest ih =>
    cases hch : childHits rmatch input c with
    | error e =>
      simp only [selectLoop, hch] at h
      exact Except.noConfusion h
    | ok b =>
      cases b with
      | false =>
        simp only [selectLoop, hch] at h
        exact ih h
      | true =>
        simp only [selectLoop, hch, Except.ok.injEq, Prod.mk.injEq] at h
        exact ⟨c, h.1.symm⟩

/-- C4: select examines the children of the current node in stored order; a
child accepts the input exactly as childHits prescribes (equality with a
selection entry for id and choice modes, an anchored-at-the-start pattern hit
for pattern mode); on the first accepting child, the previous node and the
input are pushed onto the history stacks, the current node becomes that child,
and the bar-joined sequence of all stacked input tokens is returned. -/
theorem select_first_match (rmatch : String → String → Bool) (p : MenuPointer)
    (input : String) (pre : List MenuNode) (c : MenuNode) (post : List MenuNode)
    (hsplit : p.node.children = pre ++ c :: post)
    (hpre : ∀ b ∈ pre, childHits rmatch input b = .ok false)
    (hc : childHits rmatch input c = .ok true) :
    MenuPointer.select rmatch p input =
      .ok (⟨c, p.traceid ++ [p.node], p.tracecmd ++ [input]⟩,
           some (String.intercalate "|" (p.tracecmd ++ [input]))) := by
  unfold MenuPointer.select
  rw [hsplit, selectLoop_skip rmatch p input pre (c :: post) hpre]
  simp only [selectLoop, hc]

/-- C4 witness: in a pointer at a root with the single id-mode child a, the
input a selects that child, pushes the root and the token, and returns the
joined path. -/
theorem select_first_match_witness :
    (⟨rootWithChild, [], []⟩ : MenuPointer).node.children = [] ++ nodeA :: [] ∧
    childHits (fun _ _ => false) "a" nodeA = .ok true ∧
    MenuPointer.select (fun _ _ => false) ⟨rootWithChild, [], []⟩ "a" =
      .ok (⟨nodeA, [rootWithChild], ["a"]⟩, some "a") := by
  refine ⟨rfl, rfl, ?_⟩
  exact select_first_match (fun _ _ => false) ⟨rootWithChild, [], []⟩ "a" [] nodeA []
    rfl (by intro b hb; cases hb) rfl

/-- C5: when every child of the current node cleanly rejects the input, select
raises nothing, returns the soft None signal, and leaves the pointer — the
current node and both history stacks — exactly as it was. -/
theorem select_no_match_unchanged (rmatch : String → String → Bool)
    (p : MenuPointer) (input : String)
    (h : ∀ c ∈ p.node.children, childHits rmatch input c = .ok false) :
    MenuPointer.select rmatch p input = .ok (p, none) := by
  unfold MenuPointer.select
  have h2 := selectLoop_skip rmatch p input p.node.children [] h
  rw [List.append_nil] at h2
  exact h2.trans rfl

/-- C5 witness: the input zzz matches nothing under the two-node tree's root
and select returns the untouched pointer with the soft None signal. -/
theorem select_no_match_unchanged_witness :
    (∀ c ∈ (⟨rootWithChild, [], []⟩ : MenuPointer).node.children,
        childHits (fun _ _ => false) "zzz" c = .ok false) ∧
    MenuPointer.select (fun _ _ => false) ⟨rootWithChild, [], []⟩ "zzz" =
      .ok (⟨rootWithChild, [], []⟩, none) := by
  have h : ∀ c ∈ (⟨rootWithChild, [], []⟩ : MenuPointer).node.children,
      childHits (fun _ _ => false) "zzz" c = .ok false := by
    intro c hc
    have : c = nodeA := by
      simpa [rootWithChild, MenuNode.children] using hc
    rw [this]
    rfl
  exact ⟨h, select_no_match_unchanged (fun _ _ => false) ⟨rootWithChild, [], []⟩ "zzz" h⟩

/-- C6: a successful select followed by back restores the pointer exactly —
the popped previous node becomes current again and the pushed entries leave
both history stacks; and back on an empty history (as on a freshly constructed
or freshly reset pointer) changes nothing and raises nothing. -/
theorem back_inverts_select (rmatch : String → String → Bool)
    (p p1 : MenuPointer) (input out : String) :
    (MenuPointer.select rmatch p input = .ok (p1, some out) →
      p1.back = .ok p) ∧
    (p.traceid = [] → p.back = .ok p) := by
  constructor
  · intro hsel
    obtain ⟨c, rfl⟩ := selectLoop_ok_some rmatch p input p.node.children p1 out hsel
    show MenuPointer.back ⟨c, p.traceid ++ [p.node], p.tracecmd ++ [input]⟩ = .ok p
    unfold MenuPointer.back
    simp only [List.getLast?_concat, List.dropLast_concat]
  · intro h
    unfold MenuPointer.back
    rw [h]
    rfl

/-- C6 witness: selecting a from the two-node root then calling back restores
the initial pointer, and back on the fresh pointer is a no-op. -/
theorem back_inverts_select_witness :
    (MenuPointer.select (fun _ _ => false) ⟨rootWithChild, [], []⟩ "a" =
        .ok (⟨nodeA, [rootWithChild], ["a"]⟩, some "a") ∧
      MenuPointer.back ⟨nodeA, [rootWithChild], ["a"]⟩ =
        .ok ⟨rootWithChild, [], []⟩) ∧
    ((⟨rootWithChild, [], []⟩ : MenuPointer).traceid = [] ∧
      MenuPointer.back ⟨rootWithChild, [], []⟩ = .ok ⟨rootWithChild, [], []⟩) := by
  refine ⟨⟨rfl, ?_⟩, rfl, ?_⟩
  · exact (back_inverts_select (fun _ _ => false) ⟨rootWithChild, [], []⟩
      ⟨nodeA, [rootWithChild], ["a"]⟩ "a" "a").1 rfl
  · exact (back_inverts_select (fun _ _ => false) ⟨rootWithChild, [], []⟩
      ⟨rootWithChild, [], []⟩ "a" "a").2 rfl

/-- One pattern-list entry passes its varg check: None bypasses, a string must
compile. -/
def patEntryOK (compiles : PyVal → Bool) : PyStr → Bool
  | none => true
  | some s => compiles (PyVal.vstr s)

/-- The pattern argument survives every varg check of the constructor: a
single pattern must compile, and every entry of a pattern list must be None or
compile. -/
def patternVargOK (compiles : PyVal → Bool) : Option PatternInput → Bool
  | none => true
  | some (.single p) => compiles (.vstr p)
  | some (.plist ps) => ps.all (patEntryOK compiles)

theorem varg_str_arg (compiles : PyVal → Bool) (x : PyStr) (vn : Option String) :
    varg compiles (PyStr.toVal x) [PyType.str] vn = .ok true := by
  cases x <;> simp [varg, PyStr.toVal, PyVal.isNone, isinst]

theorem varg_bool_arg (compiles : PyVal → Bool) (b : Bool) (vn : Option String) :
    varg compiles (PyVal.vbool b) [PyType.bool] vn = .ok true := by
  simp [varg, PyVal.isNone, isinst]

theorem varg_choice_arg (compiles : PyVal → Bool) (c : Option (List PyStr))
    (vn : Option String) :
    varg compiles (choiceArgVal c) [PyType.list] vn = .ok true := by
  cases c <;> simp [varg, choiceArgVal, PyVal.isNone, isinst]

theorem varg_pattern_arg (compiles : PyVal → Bool) (pat : Option PatternInput)
    (vn : Option String) (h : patternVargOK compiles pat = true) :
    varg compiles (patternArgVal pat) [PyType.list, PyType.pattern] vn = .ok true := by
  cases pat with
  | none => simp [varg, patternArgVal, PyVal.isNone]
  | some pi =>
    cases pi with
    | single p =>
      simp only [patternVargOK] at h
      simp [varg, patternArgVal, PyVal.isNone, isinst, h]
    | plist ps => simp [varg, patternArgVal, PyVal.isNone, isinst]

theorem vargEach_choice (compiles : PyVal → Bool) (xs : List PyStr) (vn : String) :
    vargEach compiles (xs.map PyStr.toVal)
      [PyType.bool, PyType.float, PyType.int, PyType.str] vn = .ok () := by
  induction xs with
  | nil => rfl
  | cons x rest ih =>
    have hx : varg compiles (PyStr.toVal x)
        [PyType.bool, PyType.float, PyType.int, PyType.str] (some vn) = .ok true := by
      cases x <;> simp [varg, PyStr.toVal, PyVal.isNone, isinst]
    simp only [List.map_cons, vargEach, hx]
    exact ih

theorem vargEach_pattern_entries (compiles : PyVal → Bool) (ps : List PyStr)
    (vn : String) (h : ps.all (patEntryOK compiles) = true) :
    vargEach compiles (ps.map PyStr.toVal) [PyType.pattern] vn = .ok () := by
  induction ps with
  | nil => rfl
  | cons x rest ih =>
    simp only [List.all_cons, Bool.and_eq_true] at h
    have hx : varg compiles (PyStr.toVal x) [PyType.pattern] (some vn) = .ok true := by
      cases x with
      | none => simp [varg, PyStr.toVal, PyVal.isNone]
      | some s =>
        have hs : compiles (PyVal.vstr s) = true := by
          simpa [patEntryOK] using h.1
        simp [varg, PyStr.toVal, PyVal.isNone, hs]
    simp only [List.map_cons, vargEach, hx]
    exact ih h.2

/-- When the pattern argument passes its varg checks (all other basic checks
always pass for the embedded argument types), the constructor reduces to the
mode-count gate followed by the passthrough / choice / pattern / id selection
chain. -/
theorem init_checks (compiles : PyVal → Bool) (id : PyStr) (tf : Bool)
    (ch : Option (List PyStr)) (pat : Option PatternInput) (bd : Option Unit)
    (mode0 : Option String) (sel0 : Option (List PyStr))
    (h : patternVargOK compiles pat = true) :
    MenuNode.init compiles id tf ch pat bd mode0 sel0 =
      (if modeOptCount tf ch pat bd > 1 then
        Except.error (PyErr.valueErrorModes (modeOptCount tf ch pat bd))
      else initModeChain id ch pat mode0 sel0) := by
  unfold MenuNode.init
  rw [varg_str_arg, varg_bool_arg, varg_choice_arg, varg_pattern_arg compiles pat _ h]
  cases ch with
  | none =>
    cases pat with
    | none => rfl
    | some pi =>
      cases pi with
      | single p => rfl
      | plist ps =>
        simp only [vargEach_pattern_entries compiles ps "pattern"
          (by simpa [patternVargOK] using h)]
  | some xs =>
    cases pat with
    | none =>
      simp only [vargEach_choice]
    | some pi =>
      cases pi with
      | single p =>
        simp only [vargEach_choice]
      | plist ps =>
        simp only [vargEach_choice, vargEach_pattern_entries compiles ps "pattern"
          (by simpa [patternVargOK] using h)]

/-- C7: with well-formed (compiling) pattern input, supplying at most one of
the mutually exclusive mode inputs (truefalse, choice, pattern, bounds) and no
passthrough keywords constructs a node whose mode is one of id, choice or
pattern, while supplying two or more raises the configuration ValueError
carrying the count of mode inputs detected (the source message reads: Only
single input mode option allowed, arguments show that many modes selected). -/
theorem node_mode_exclusive (compiles : PyVal → Bool) (id : PyStr) (tf : Bool)
    (ch : Option (List PyStr)) (pat : Option PatternInput) (bd : Option Unit)
    (h : patternVargOK compiles pat = true) :
    (modeOptCount tf ch pat bd ≤ 1 →
      ∃ nd, MenuNode.init compiles id tf ch pat bd none none = .ok nd ∧
        (nd.mode = "id" ∨ nd.mode = "choice" ∨ nd.mode = "pattern")) ∧
    (modeOptCount tf ch pat bd > 1 →
      MenuNode.init compiles id tf ch pat bd none none =
        .error (.valueErrorModes (modeOptCount tf ch pat bd))) := by
  rw [init_checks compiles id tf ch pat bd none none h]
  constructor
  · intro hle
    rw [if_neg (by omega)]
    cases ch with
    | some xs => exact ⟨_, rfl, Or.inr (Or.inl rfl)⟩
    | none =>
      cases pat with
      | none => exact ⟨_, rfl, Or.inl rfl⟩
      | some pi =>
        cases pi with
        | single p => exact ⟨_, rfl, Or.inr (Or.inr rfl)⟩
        | plist ps => exact ⟨_, rfl, Or.inr (Or.inr rfl)⟩
  · intro hgt
    rw [if_pos hgt]

/-- C7 witness: one mode input (a choice list) constructs a choice-mode node;
a second mode input (truefalse=True as well) raises the ValueError carrying
the count 2. -/
theorem node_mode_exclusive_witness :
    (patternVargOK (fun _ => true) none = true ∧
      modeOptCount false (some [some "y"]) none none ≤ 1 ∧
      (∃ nd, MenuNode.init (fun _ => true) (some "n") false (some [some "y"])
          none none none none = .ok nd ∧
        (nd.mode = "id" ∨ nd.mode = "choice" ∨ nd.mode = "pattern"))) ∧
    (modeOptCount true (some [some "y"]) none none > 1 ∧
      MenuNode.init (fun _ => true) (some "n") true (some [some "y"])
          none none none none = .error (.valueErrorModes 2)) := by
  refine ⟨⟨rfl, by decide, ?_⟩, by decide, ?_⟩
  · exact (node_mode_exclusive (fun _ => true) (some "n") false (some [some "y"])
      none none rfl).1 (by decide)
  · exact (node_mode_exclusive (fun _ => true) (some "n") true (some [some "y"])
      none none rfl).2 (by decide)

/-- C9: a node constructed with only a pattern input gets pattern mode and a
selection that is a list of the patterns: a single pattern is wrapped into the
one-element list holding it, and a pattern list is stored as given. -/
theorem pattern_selection_wrapped (compiles : PyVal → Bool) (id : PyStr)
    (p : String) (ps : List PyStr)
    (h1 : compiles (PyVal.vstr p) = true)
    (h2 : ps.all (patEntryOK compiles) = true) :
    MenuNode.init compiles id false none (some (.single p)) none none none =
      .ok (.mk id "pattern" [some p] none []) ∧
    MenuNode.init compiles id false none (some (.plist ps)) none none none =
      .ok (.mk id "pattern" ps none []) := by
  constructor
  · rw [init_checks compiles id false none (some (.single p)) none none none
      (by simpa [patternVargOK] using h1)]
    rfl
  · rw [init_checks compiles id false none (some (.plist ps)) none none none
      (by simpa [patternVargOK] using h2)]
    rfl

/-- C9 witness: a concrete single pattern is wrapped into a one-element
selection and a concrete two-element pattern list is stored as given. -/
theorem pattern_selection_wrapped_witness :
    ((fun _ => true : PyVal → Bool) (PyVal.vstr "^x") = true ∧
      ([some "^a", some "^b"] : List PyStr).all (patEntryOK (fun _ => true)) = true) ∧
    MenuNode.init (fun _ => true) (some "n") false none (some (.single "^x"))
        none none none = .ok (.mk (some "n") "pattern" [some "^x"] none []) ∧
    MenuNode.init (fun _ => true) (some "n") false none
        (some (.plist [some "^a", some "^b"])) none none none =
      .ok (.mk (some "n") "pattern" [some "^a", some "^b"] none []) := by
  exact ⟨⟨rfl, rfl⟩,
    pattern_selection_wrapped (fun _ => true) (some "n") "^x"
      [some "^a", some "^b"] rfl rfl⟩

/-- C10: the type-validation helper returns True for a None input whatever the
expected types are and without raising, so None slips through every validated
entry point; in particular constructing a MenuNode with identifier None
succeeds and yields a node whose id is None, whose mode is id, and whose
selection is the one-element list holding None. -/
theorem varg_none_bypass (compiles : PyVal → Bool) (args : List PyType)
    (varname : Option String) :
    varg compiles PyVal.vnone args varname = .ok true ∧
    MenuNode.init compiles none false none none none none none =
      .ok (.mk none "id" [none] none []) := by
  constructor
  · rfl
  · rw [init_checks compiles none false none none none none none rfl]
    rfl

end Menuize
